import Mathlib

/-!
# go-orbitdb trust-and-addressing core: shallow embedding

Shallow embedding of the entry model and identity subsystem of the
go-orbitdb repository (oplog/entry.go, identities/providers/publickey.go,
identities/providers/publickey_identity_provider.go,
identities/identities.go), together with the theorems settling the frozen
claims about it.

Modelling conventions:
* Go byte strings (`string`, `[]byte`) are `List Nat` of byte values.
* The external cryptographic primitives (SHA-256, P-256 scalar
  multiplication, ECDSA sign/verify) are external collaborators of this
  core; they are taken as explicit function parameters (`H`, `G`, `ECSign`,
  `ECVerify`).  `ecdsa.Sign`'s randomness is abstracted by passing the
  produced `(r, s)` outcome function per call.
* Go code that can `panic` is embedded with the `Outcome` type, whose
  `panicked` constructor marks process termination (distinct from a
  returned error, embedded with `Except`).
* Code of the repository that is not under src/ (identitytypes,
  provider_registry) is modelled from the spec; each such definition's doc
  comment says so.
-/

set_option maxRecDepth 4000

namespace OrbitDB

/-- A Go byte string (`string` / `[]byte`): a list of byte values. -/
abbrev GoStr := List Nat

/-- ASCII bytes of a Lean string literal (all literals used are ASCII). -/
def asc (s : String) : GoStr := s.toList.map Char.toNat

/-- Lowercase hex digit for a value below 16 (as in Go `encoding/hex`). -/
def hexDigit (n : Nat) : Nat := if n < 10 then 48 + n else 87 + n

/-- Go `hex.EncodeToString`: two lowercase hex digits per byte. -/
def hexEncodeBytes (bs : GoStr) : GoStr :=
  (bs.map (fun b => [hexDigit (b / 16), hexDigit (b % 16)])).foldr (fun a b => a ++ b) []

/-- Value of one hex digit character, upper or lower case, as Go hex parsing
accepts. -/
def hexDigitVal (c : Nat) : Option Nat :=
  if 48 ≤ c ∧ c ≤ 57 then some (c - 48)
  else if 97 ≤ c ∧ c ≤ 102 then some (c - 87)
  else if 65 ≤ c ∧ c ≤ 70 then some (c - 55)
  else none

/-- Go `hex.DecodeString`: pairs of hex digits to bytes; fails on odd length
or a non-hex character. -/
def hexDecode : GoStr → Option GoStr
  | [] => some []
  | [_] => none
  | a :: b :: rest =>
    match hexDigitVal a, hexDigitVal b, hexDecode rest with
    | some x, some y, some tl => some ((16 * x + y) :: tl)
    | _, _, _ => none

/-- Parse a nonempty run of hex digits as a natural number; `none` on an
empty string or a non-hex character. -/
def hexDigitsToNat (cs : GoStr) : Option Nat :=
  match cs with
  | [] => none
  | _ => cs.foldl
      (fun acc c =>
        match acc, hexDigitVal c with
        | some a, some v => some (16 * a + v)
        | _, _ => none)
      (some 0)

/-- Go `big.Int.SetString` with base 16: an optional sign followed by a
nonempty run of hex digits. -/
def setStringHex (s : GoStr) : Option Int :=
  match s with
  | 45 :: rest => (hexDigitsToNat rest).map (fun n => -(n : Int))
  | 43 :: rest => (hexDigitsToNat rest).map (fun n => (n : Int))
  | _ => (hexDigitsToNat s).map (fun n => (n : Int))

/-- Big-endian bytes of `n`, recursing with explicit fuel so the definition
is structural (and hence evaluates in the kernel). -/
def natBytesFuel : Nat → Nat → GoStr
  | 0, _ => []
  | fuel + 1, n => if n = 0 then [] else natBytesFuel fuel (n / 256) ++ [n % 256]

/-- Go `big.Int.Bytes`: minimal big-endian bytes, empty for zero. -/
def natBytes (n : Nat) : GoStr := natBytesFuel (n + 1) n

/-- Big-endian value of a byte string (Go `big.Int.SetBytes`). -/
def bytesToNat (bs : GoStr) : Nat := bs.foldl (fun a b => 256 * a + b) 0

/-! ## CBOR primitives

The canonical binary codec engine (go-ipld-prime dag-cbor) is an external
collaborator; the spec assumes it provides deterministic schema-directed map
encoding.  We embed the concrete CBOR byte layout it produces for the fixed
entry schema declared inline in oplog/entry.go, with map entries in schema
declaration order (the order the bindnode struct iterator yields). -/

/-- Fixed-length big-endian bytes. -/
def beBytes (len n : Nat) : GoStr :=
  (List.range len).map (fun i => n / 256 ^ (len - 1 - i) % 256)

/-- CBOR item head: major type and argument. -/
def cborHead (major n : Nat) : GoStr :=
  if n < 24 then [32 * major + n]
  else if n < 256 then [32 * major + 24, n]
  else if n < 65536 then [32 * major + 25] ++ beBytes 2 n
  else if n < 4294967296 then [32 * major + 26] ++ beBytes 4 n
  else [32 * major + 27] ++ beBytes 8 n

/-- CBOR text string (major type 3). -/
def cborText (s : GoStr) : GoStr := cborHead 3 s.length ++ s

/-- CBOR integer (major type 0 or 1). -/
def cborInt (i : Int) : GoStr :=
  if 0 ≤ i then cborHead 0 i.toNat else cborHead 1 (-(i + 1)).toNat

/-- CBOR homogeneous list of text strings (major type 4). -/
def cborTextList (xs : List GoStr) : GoStr :=
  cborHead 4 xs.length ++ (xs.map cborText).foldr (fun a b => a ++ b) []

/-! ## Entry model (oplog/entry.go) -/

/-- `oplog.Clock`: the fields the inline schema in oplog/entry.go declares
(`id String`, `time Int`). -/
structure Clock where
  id : GoStr
  time : Int
deriving DecidableEq, Repr

/-- `oplog.Entry`. -/
structure Entry where
  ID : GoStr
  Payload : GoStr
  Next : List GoStr
  Refs : List GoStr
  Clock : Clock
  V : Int
  Key : GoStr
  Identity : GoStr
  Signature : GoStr
deriving DecidableEq, Repr

/-- A content identifier as built by `cid.NewCidV1`: version, codec tag and
multihash bytes. -/
structure Cid where
  version : Nat
  codec : Nat
  multihash : GoStr
deriving DecidableEq, Repr

/-- `oplog.EncodedEntry`: the entry plus its canonical bytes and CID. -/
structure EncodedEntry where
  Entry : Entry
  Bytes : GoStr
  CID : Cid
deriving DecidableEq, Repr

/-- Dag-cbor map bytes of a `Clock` per the inline schema
(`representation map`, fields `id`, `time`). -/
def encodeClockBytes (c : Clock) : GoStr :=
  cborHead 5 2
    ++ cborText (asc "id") ++ cborText c.id
    ++ cborText (asc "time") ++ cborInt c.time

/-- Dag-cbor map bytes of an `Entry` per the inline schema in
oplog/entry.go (nine fields, `representation map`). -/
def encodeEntryBytes (e : Entry) : GoStr :=
  cborHead 5 9
    ++ cborText (asc "ID") ++ cborText e.ID
    ++ cborText (asc "Payload") ++ cborText e.Payload
    ++ cborText (asc "Next") ++ cborTextList e.Next
    ++ cborText (asc "Refs") ++ cborTextList e.Refs
    ++ cborText (asc "Clock") ++ encodeClockBytes e.Clock
    ++ cborText (asc "V") ++ cborInt e.V
    ++ cborText (asc "Key") ++ cborText e.Key
    ++ cborText (asc "Identity") ++ cborText e.Identity
    ++ cborText (asc "Signature") ++ cborText e.Signature

/-- `mh.Sum(buf, mh.SHA2_256, -1)`: multihash tag 0x12, length 32, then the
digest produced by the hash function `H` (SHA-256, an external primitive
passed as a parameter). -/
def mhSumSha256 (H : GoStr → GoStr) (bs : GoStr) : GoStr := [18, 32] ++ H bs

/-- `cid.NewCidV1(cid.DagCBOR, hash)`: version 1, codec 0x71. -/
def cidNewV1DagCbor (mh : GoStr) : Cid := ⟨1, 113, mh⟩

/-- `oplog.Encode`: canonically encode the entry, hash the bytes, build the
CID, and return the `EncodedEntry`.  `H` is the external SHA-256. -/
def Encode (H : GoStr → GoStr) (entry : Entry) : EncodedEntry :=
  let buf := encodeEntryBytes entry
  let hash := mhSumSha256 H buf
  let c := cidNewV1DagCbor hash
  ⟨entry, buf, c⟩

/-! ## Identity structures -/

/-- An elliptic-curve public key's coordinates (`ecdsa.PublicKey.X/Y`). -/
structure ECPoint where
  x : Nat
  y : Nat
deriving DecidableEq, Repr

/-- The outcome of one `ecdsa.Sign` call: the produced `(r, s)` pair as a
function of the private scalar and the message digest.  Randomness is
abstracted by quantifying over this function per call. -/
abbrev ECSign := Nat → GoStr → Nat × Nat

/-- `ecdsa.Verify` as an external primitive: public key, digest, `r`, `s`. -/
abbrev ECVerify := ECPoint → GoStr → Int → Int → Bool

/-- The rigid two-field self-signature record of `identities.Identity`
(used by publickey_identity_provider.go). -/
structure SigPair where
  ID : GoStr
  PublicKey : GoStr
deriving DecidableEq, Repr

/-- `identities.Identity` (the elliptic-curve-keyed identity record used by
oplog/entry.go and publickey_identity_provider.go; its declaring file is
not under src/, so its shape is taken from those two users and spec section
three: a public key point, an optional locally-held private key, a rigid
two-field signature record, a provider type tag and an identifier hash). -/
structure IdentityEC where
  ID : GoStr
  PublicKey : ECPoint
  PrivateKey : Option Nat
  Signatures : SigPair
  Type' : GoStr
  Identity : GoStr
deriving DecidableEq, Repr

/-- `identities.Identity.PublicKeyHex`.  Modelled from the spec: the
declaring file is not under src/; the spec fixes the hex public-key form as
the hex encoding of the X bytes followed by the Y bytes, matching
`createHardcodedKeyPair`'s use in publickey.go. -/
def PublicKeyHex (i : IdentityEC) : GoStr :=
  hexEncodeBytes (natBytes i.PublicKey.x ++ natBytes i.PublicKey.y)

/-- The wire form of an ECDSA signature as publickey.go's `signData` builds
it: `hex.EncodeToString(r.Bytes()) + hex.EncodeToString(s.Bytes())`, each
component at its natural (minimal) byte width. -/
def signDataRS (r s : Nat) : GoStr :=
  hexEncodeBytes (natBytes r) ++ hexEncodeBytes (natBytes s)

/-- publickey.go `signData`: hash the data with SHA-256 (`H`), sign the
digest with `ecdsa.Sign` (abstracted by `ec`), hex-concatenate `r` and `s`
at natural width. -/
def signData (ec : ECSign) (H : GoStr → GoStr) (d : Nat) (data : GoStr) : GoStr :=
  let hash := H data
  let rs := ec d hash
  signDataRS rs.1 rs.2

/-- `identities.Identity.Sign`.  Modelled from the spec: the declaring file
is not under src/; spec sections 4.2 and 4.3 say signing fails if the
identity carries no private key and otherwise signs the SHA-256 digest of
the data, producing the hex `r`-`s` concatenation. -/
def IdentityEC.Sign (H : GoStr → GoStr) (ec : ECSign) (i : IdentityEC)
    (data : GoStr) : Except GoStr GoStr :=
  match i.PrivateKey with
  | none => .error (asc "private signing key not found for identity")
  | some d => .ok (signData ec H d data)

/-- Outcome of running Go code that may `panic`: either a returned value or
process termination with a panic message. -/
inductive Outcome (α : Type) where
  | ok : α → Outcome α
  | panicked : GoStr → Outcome α
deriving DecidableEq, Repr

/-- `oplog.NewEntry`: assemble the entry with an empty signature, encode it
once, sign those bytes, then set the `Signature` field on the already
encoded result.  The `Bytes` and `CID` fields are not recomputed after the
signature is attached, and a signing error is a `panic`, faithful to the
source. -/
def NewEntry (H : GoStr → GoStr) (ec : ECSign) (identity : IdentityEC)
    (id payload : GoStr) (clock : Clock) : Outcome EncodedEntry :=
  let entry : Entry :=
    { ID := id
      Payload := payload
      Clock := clock
      V := 2
      Key := PublicKeyHex identity
      Identity := identity.Identity
      Next := []
      Refs := []
      Signature := [] }
  let encodedEntry := Encode H entry
  match IdentityEC.Sign H ec identity encodedEntry.Bytes with
  | .error e => .panicked e
  | .ok signature =>
    .ok { encodedEntry with Entry := { encodedEntry.Entry with Signature := signature } }

/-- publickey_identity_provider.go `VerifyIdentityWithEntry`: hash the data,
split the hex signature at half its length, parse each half with
`big.Int.SetString` base 16 (an error on a malformed half), then return the
`ecdsa.Verify` result with no error. -/
def VerifyIdentityWithEntry (H : GoStr → GoStr) (ecV : ECVerify)
    (identity : IdentityEC) (data : GoStr) (signature : GoStr) :
    Except GoStr Bool :=
  let hash := H data
  match setStringHex (signature.take (signature.length / 2)) with
  | none => .error (asc "invalid signature format")
  | some r =>
    match setStringHex (signature.drop (signature.length / 2)) with
    | none => .error (asc "invalid signature format")
    | some s => .ok (ecV identity.PublicKey hash r s)

/-- A provider as oplog/entry.go consumes it: the capability record whose
`VerifyIdentityWithEntry` method is dispatched to. -/
structure Provider where
  VerifyIdentityWithEntry : IdentityEC → GoStr → GoStr → Except GoStr Bool

/-- A provider registry: type name to provider. -/
abbrev Registry := List (GoStr × Provider)

/-- Registry lookup. -/
def registryLookup (t : GoStr) : Registry → Option Provider
  | [] => none
  | (k, p) :: rest => if t = k then some p else registryLookup t rest

/-- `provider_registry.GetIdentityProvider`.  Modelled from the spec: the
registry file is not under src/; spec section 4.1 says `Get` returns the
provider registered under the type name or a NotFound error. -/
def GetIdentityProvider (reg : Registry) (t : GoStr) : Except GoStr Provider :=
  match registryLookup t reg with
  | none => .error (asc "identity provider not found")
  | some p => .ok p

/-- `oplog.VerifyEntrySignature`: resolve the provider from the identity's
type (`false` on a registry error), then delegate to the provider's
`VerifyIdentityWithEntry` with the entry's *stored* canonical bytes and
stored signature (`false` on a provider error).  No panicking operation
occurs on any path of the source function. -/
def VerifyEntrySignature (reg : Registry) (identity : IdentityEC)
    (entry : EncodedEntry) : Bool :=
  match GetIdentityProvider reg identity.Type' with
  | .error _ => false
  | .ok provider =>
    match provider.VerifyIdentityWithEntry identity entry.Bytes entry.Entry.Signature with
    | .error _ => false
    | .ok valid => valid

/-! ## identitytypes.Identity and the public-key provider (publickey.go) -/

/-- `identitytypes.Identity` (used by publickey.go and identities.go): the
hex-keyed identity record with a generic name-to-value signature map. Its
declaring file is not under src/; the shape is taken from its two users
under src/, its test file, and spec section three. -/
structure IdentityPK where
  ID : GoStr
  PublicKey : GoStr
  PrivateKey : Option Nat
  Signatures : List (GoStr × GoStr)
  Type' : GoStr
  Hash : GoStr
  Bytes : GoStr
deriving DecidableEq, Repr

/-- Lookup in the signatures map (Go `identity.Signatures[name]`). -/
def lookupSig (k : GoStr) : List (GoStr × GoStr) → Option GoStr
  | [] => none
  | (k', v) :: rest => if k = k' then some v else lookupSig k rest

/-- `identitytypes.IsIdentity`.  Modelled from the spec: the declaring file
is not under src/; spec sections 4.2/4.3 require all fields populated (its
test accepts a fully populated identity and rejects the zero value). -/
def IsIdentity (i : IdentityPK) : Bool :=
  !i.ID.isEmpty && !i.PublicKey.isEmpty && !i.Type'.isEmpty
    && !i.Hash.isEmpty && !i.Bytes.isEmpty
    && (lookupSig (asc "id") i.Signatures).isSome
    && (lookupSig (asc "publicKey") i.Signatures).isSome

/-- Canonical bytes of an identity.  Modelled from the spec: the declaring
file of `identitytypes.EncodeIdentity` is not under src/; spec sections 3
and 6 prescribe a fixed-field canonical map encoding of every field except
`PrivateKey` (and the derived `Hash`/`Bytes`). -/
def encodeIdentityBytes (i : IdentityPK) : GoStr :=
  cborHead 5 4
    ++ cborText (asc "id") ++ cborText i.ID
    ++ cborText (asc "publicKey") ++ cborText i.PublicKey
    ++ cborText (asc "signatures")
      ++ (cborHead 5 2
        ++ cborText (asc "id")
          ++ cborText ((lookupSig (asc "id") i.Signatures).getD [])
        ++ cborText (asc "publicKey")
          ++ cborText ((lookupSig (asc "publicKey") i.Signatures).getD []))
    ++ cborText (asc "type") ++ cborText i.Type'

/-- `identitytypes.EncodeIdentity`.  Modelled from the spec: canonical bytes
of the identity plus a content hash of those bytes (multihash-tagged digest,
as for entries); returns `(hash, bytes)`. -/
def EncodeIdentity (H : GoStr → GoStr) (i : IdentityPK) : GoStr × GoStr :=
  let bytes := encodeIdentityBytes i
  (mhSumSha256 H bytes, bytes)

/-- The fixed private scalar of publickey.go `createHardcodedKeyPair`:
`5e5d9e0a44685aee2282a44d2d3e9a1b` in hex. -/
def hardcodedD : Nat := 0x5e5d9e0a44685aee2282a44d2d3e9a1b

/-- P-256 scalar base multiplication (`elliptic.P256().ScalarBaseMult`), an
external curve primitive passed as a parameter. -/
abbrev ScalarBaseMult := Nat → ECPoint

/-- publickey.go `createHardcodedKeyPair`: the fixed scalar and its public
point. -/
def createHardcodedKeyPair (G : ScalarBaseMult) : Nat × ECPoint :=
  (hardcodedD, G hardcodedD)

/-- publickey.go `PublicKeyProvider.CreateIdentity`: the hardcoded key pair,
the hex public key (X bytes then Y bytes), a self-signature over the raw id
and one over the hex public key (`ec1`, `ec2` are the two `ecdsa.Sign`
outcomes), then the canonical hash and bytes from `EncodeIdentity`. -/
def CreateIdentity (H : GoStr → GoStr) (G : ScalarBaseMult)
    (ec1 ec2 : ECSign) (id : GoStr) : IdentityPK :=
  let pair := createHardcodedKeyPair G
  let publicKey := hexEncodeBytes (natBytes pair.2.x ++ natBytes pair.2.y)
  let idSignature := signData ec1 H pair.1 id
  let publicKeySignature := signData ec2 H pair.1 publicKey
  let identity : IdentityPK :=
    { ID := id
      PublicKey := publicKey
      PrivateKey := some pair.1
      Signatures :=
        [(asc "id", idSignature), (asc "publicKey", publicKeySignature)]
      Type' := asc "publickey"
      Hash := []
      Bytes := [] }
  let hb := EncodeIdentity H identity
  { identity with Hash := hb.1, Bytes := hb.2 }

/-- The curve byte width of P-256 (32 bytes), the fixed width the spec
requires for each signature component. -/
def curveByteSize : Nat := 32

/-- Parse a signature in the spec's wire format: exactly `2 * 32` hex
characters per component, split at that fixed width. -/
def parseFixedSig (sig : GoStr) : Option (Nat × Nat) :=
  if sig.length = 4 * curveByteSize then
    match hexDigitsToNat (sig.take (2 * curveByteSize)),
        hexDigitsToNat (sig.drop (2 * curveByteSize)) with
    | some r, some s => some (r, s)
    | _, _ => none
  else none

/-- Decode a hex public key back into its coordinates: hex-decode, then
split the byte string into equal X and Y halves. -/
def decodePublicKeyHex (pubHex : GoStr) : Option ECPoint :=
  match hexDecode pubHex with
  | none => none
  | some bs =>
    if bs.length % 2 ≠ 0 ∨ bs.isEmpty then none
    else some ⟨bytesToNat (bs.take (bs.length / 2)), bytesToNat (bs.drop (bs.length / 2))⟩

/-- `identitytypes.Identity.Verify`.  Modelled from the spec: the declaring
file is not under src/; spec sections 4.2 and 6 fix the wire format as
`hex(r)` then `hex(s)` with each component at the curve's fixed byte width,
decoded by splitting at that fixed width; the data is digested with SHA-256
and checked with `ecdsa.Verify` against the identity's decoded public
key. -/
def IdentityPK.Verify (H : GoStr → GoStr) (ecV : ECVerify) (i : IdentityPK)
    (signature data : GoStr) : Bool :=
  match parseFixedSig signature, decodePublicKeyHex i.PublicKey with
  | some rs, some pub => ecV pub (H data) (rs.1 : Int) (rs.2 : Int)
  | _, _ => false

/-- publickey.go `PublicKeyProvider.Verify`: delegates to
`identity.Verify`. -/
def PublicKeyProviderVerifyData (H : GoStr → GoStr) (ecV : ECVerify)
    (i : IdentityPK) (signature data : GoStr) : Bool :=
  IdentityPK.Verify H ecV i signature data

/-- publickey.go `PublicKeyProvider.VerifyIdentity`: require all fields
populated, then check the `id` self-signature against the raw id and the
`publicKey` self-signature against the hex public key; Go's `(bool, error)`
result is the pair. -/
def PublicKeyProviderVerifyIdentity (H : GoStr → GoStr) (ecV : ECVerify)
    (i : IdentityPK) : Bool × Option GoStr :=
  if !IsIdentity i then
    (false, some (asc "identity is missing required fields"))
  else
    match lookupSig (asc "id") i.Signatures with
    | none => (false, some (asc "invalid or missing ID signature"))
    | some idSignature =>
      if !PublicKeyProviderVerifyData H ecV i idSignature i.ID then
        (false, some (asc "invalid or missing ID signature"))
      else
        match lookupSig (asc "publicKey") i.Signatures with
        | none => (false, some (asc "invalid or missing public key signature"))
        | some publicKeySignature =>
          if !PublicKeyProviderVerifyData H ecV i publicKeySignature i.PublicKey then
            (false, some (asc "invalid or missing public key signature"))
          else (true, none)

/-- identities.go `Identities.VerifyIdentity`: delegate to the bound
provider's `VerifyIdentity` and discard its error, returning only the
boolean.  `pv` is the bound provider's `VerifyIdentity` method. -/
def IdentitiesVerifyIdentity (pv : IdentityPK → Bool × Option GoStr)
    (identity : IdentityPK) : Bool :=
  (pv identity).1

/-- The half-length signature split of
publickey_identity_provider.go `VerifyIdentityWithEntry`, as a standalone
decoder: split the hex string at half its length and parse each half with
`big.Int.SetString` base 16. -/
def splitSignatureAtHalf (sig : GoStr) : Option (Int × Int) :=
  match setStringHex (sig.take (sig.length / 2)),
      setStringHex (sig.drop (sig.length / 2)) with
  | some r, some s => some (r, s)
  | _, _ => none

/-! ## Concrete sample values

Small concrete instantiations of the abstract cryptographic parameters,
used by the witness theorems to evaluate the embedded code on closed
inputs. -/

/-- A sample stand-in digest function. -/
def tH : GoStr → GoStr := fun bs => List.replicate 32 (bs.length % 256)

/-- A sample `ecdsa.Sign` outcome. -/
def tEc : ECSign := fun _ _ => (1, 2)

/-- A sample elliptic-curve identity with a private key. -/
def tIdentity : IdentityEC :=
  { ID := asc "alice"
    PublicKey := ⟨3, 5⟩
    PrivateKey := some 7
    Signatures := ⟨[], []⟩
    Type' := asc "publickey"
    Identity := asc "idhash" }

/-- The same identity without a private key. -/
def tIdentityNoKey : IdentityEC := { tIdentity with PrivateKey := none }

/-- A sample clock. -/
def tClock : Clock := ⟨asc "alice", 1⟩

/-- The entry `NewEntry` assembles from the sample inputs before signing. -/
def tEntry0 : Entry :=
  { ID := asc "A"
    Payload := asc "hello"
    Next := []
    Refs := []
    Clock := tClock
    V := 2
    Key := PublicKeyHex tIdentity
    Identity := asc "idhash"
    Signature := [] }

/-- The encoded entry `NewEntry` returns on the sample inputs. -/
def tEncoded : EncodedEntry :=
  { Encode tH tEntry0 with Entry := { tEntry0 with Signature := signDataRS 1 2 } }

/-- A sample always-false `ecdsa.Verify`. -/
def tEcVfalse : ECVerify := fun _ _ _ _ => false

/-- A sample `ecdsa.Verify` accepting exactly `r = 18`, `s = 52`. -/
def t6EcV : ECVerify := fun _ _ r s => decide (r = 18) && decide (s = 52)

/-- The zero-value `identitytypes.Identity`. -/
def tPKEmpty : IdentityPK :=
  { ID := [], PublicKey := [], PrivateKey := none, Signatures := []
    Type' := [], Hash := [], Bytes := [] }

/-- A sample fully populated entry (first copy). -/
def t9E1 : Entry :=
  { ID := asc "A", Payload := asc "hello", Next := [asc "n1"], Refs := [asc "r1"]
    Clock := ⟨asc "alice", 1⟩, V := 2, Key := asc "ab", Identity := asc "cd"
    Signature := asc "ef" }

/-- The same logical entry value written out a second time. -/
def t9E2 : Entry :=
  { ID := asc "A", Payload := asc "hello", Next := [asc "n1"], Refs := [asc "r1"]
    Clock := ⟨asc "alice", 1⟩, V := 2, Key := asc "ab", Identity := asc "cd"
    Signature := asc "ef" }

/-- Sample full-width signature components (32-byte values). -/
def t5r1 : Nat := 2 ^ 255 + 11

/-- Sample full-width signature component. -/
def t5s1 : Nat := 2 ^ 255 + 13

/-- Sample full-width signature component. -/
def t5r2 : Nat := 2 ^ 255 + 17

/-- Sample full-width signature component. -/
def t5s2 : Nat := 2 ^ 255 + 19

/-- Sample public-key X coordinate (32-byte value). -/
def t5x : Nat := 2 ^ 255 + 3

/-- Sample public-key Y coordinate (32-byte value). -/
def t5y : Nat := 2 ^ 255 + 7

/-- A sample scalar base multiplication sending every scalar to the sample
point. -/
def t5G : ScalarBaseMult := fun _ => ⟨t5x, t5y⟩

/-- A sample digest function: the identity on byte strings (injective, so
distinct messages have distinct digests). -/
def t5H : GoStr → GoStr := fun bs => bs

/-- A sample identity id. -/
def t5id : GoStr := asc "alice"

/-- The hex public key of the sample point. -/
def t5pubHex : GoStr := hexEncodeBytes (natBytes t5x ++ natBytes t5y)

/-- Sample sign outcome for the first self-signature. -/
def t5ec1 : ECSign := fun _ _ => (t5r1, t5s1)

/-- Sample sign outcome for the second self-signature. -/
def t5ec2 : ECSign := fun _ _ => (t5r2, t5s2)

/-- A sample sound-and-complete `ecdsa.Verify` for the two sample
signatures: accepts exactly the two legitimate (key, digest, r, s)
combinations. -/
def t5EcV : ECVerify := fun pub h r s =>
  decide (pub = ECPoint.mk t5x t5y)
    && ((decide (h = t5id) && decide (r = (t5r1 : Int)) && decide (s = (t5s1 : Int)))
      || (decide (h = t5pubHex) && decide (r = (t5r2 : Int)) && decide (s = (t5s2 : Int))))

/-- A sample `ecdsa.Verify` that accepts everything. -/
def tEcVtrue : ECVerify := fun _ _ _ _ => true

/-- A sample `ecdsa.Sign` outcome with short-width components: `r = 1` has
natural byte width 1 and `s = 2` has natural byte width 1, far below the
curve's 32. -/
def tEcShort1 : ECSign := fun _ _ => (1, 2)

/-- A second short-width `ecdsa.Sign` outcome. -/
def tEcShort2 : ECSign := fun _ _ => (3, 4)

/-! ## Helper lemmas -/

theorem createIdentity_Signatures (H : GoStr → GoStr) (G : ScalarBaseMult)
    (ec1 ec2 : ECSign) (id : GoStr) :
    (CreateIdentity H G ec1 ec2 id).Signatures
      = [(asc "id", signData ec1 H hardcodedD id),
         (asc "publicKey",
          signData ec2 H hardcodedD
            (hexEncodeBytes (natBytes (G hardcodedD).x ++ natBytes (G hardcodedD).y)))] :=
  rfl

theorem signData_eq_of_outcome (ec : ECSign) (H : GoStr → GoStr)
    (d : Nat) (data : GoStr) (r s : Nat) (h : ec d (H data) = (r, s)) :
    signData ec H d data = signDataRS r s := by
  simp [signData, h]

/-! ## Claim theorems -/

/-- C2: the claim states that `signData` encodes `r` and `s` each to the
curve's fixed 32-byte width before hex encoding and that decoding splits at
that fixed width.  Counter-evidence from the source: for a signature with
`r = 1` and `s = 256`, `signData`'s wire form is six hex characters (not
the fixed 128), the fixed-width decoder rejects it, and the half-length
split that `VerifyIdentityWithEntry` actually performs mis-parses it as
`(16, 256)` instead of `(1, 256)`. -/
theorem C2_signature_width_counterexample :
    (signDataRS 1 256).length = 6
      ∧ (signDataRS 1 256).length ≠ 4 * curveByteSize
      ∧ parseFixedSig (signDataRS 1 256) = none
      ∧ splitSignatureAtHalf (signDataRS 1 256) = some (16, 256)
      ∧ splitSignatureAtHalf (signDataRS 1 256) ≠ some ((1 : Int), (256 : Int)) := by
  decide

/-- C3: the claim states that `VerifyEntrySignature` recomputes the
pre-signature canonical bytes from the entry's fields, so that changing any
byte of `Payload`, `Key` or `Clock.time` invalidates it.  Counter-evidence
from the source: the function reads only the stored `Bytes` and `Signature`
of the `EncodedEntry` (and the identity's type), so replacing the `Payload`,
`Key` and `Clock` fields arbitrarily leaves its result unchanged, for every
registry and every provider. -/
theorem C3_verifyEntrySignature_ignores_entry_fields
    (reg : Registry) (identity : IdentityEC) (e : EncodedEntry)
    (p k : GoStr) (c : Clock) :
    VerifyEntrySignature reg identity
        { e with Entry := { e.Entry with Payload := p, Key := k, Clock := c } }
      = VerifyEntrySignature reg identity e :=
  rfl

/-- C4: the claim states that `NewEntry` reports every input-dependent
failure by returning an error and never terminates the process.
Counter-evidence from the source: `NewEntry` has no error return at all and
`panic`s when signing fails, which happens on every identity that carries
no private signing key. -/
theorem C4_newEntry_panics_on_sign_failure (H : GoStr → GoStr) (ec : ECSign)
    (identity : IdentityEC) (id payload : GoStr) (clock : Clock)
    (h : identity.PrivateKey = none) :
    NewEntry H ec identity id payload clock
      = .panicked (asc "private signing key not found for identity") := by
  simp [NewEntry, IdentityEC.Sign, h]

/-- Witness for C4: `NewEntry` panics on the sample identity that has no
private key. -/
theorem C4_witness :
    NewEntry tH tEc tIdentityNoKey (asc "A") (asc "hello") tClock
      = .panicked (asc "private signing key not found for identity") :=
  C4_newEntry_panics_on_sign_failure tH tEc tIdentityNoKey (asc "A")
    (asc "hello") tClock rfl

/-- C7: for every identity whose provider type is not registered,
`VerifyEntrySignature` returns `false`; the embedded source path performs
no panicking operation (the function is total). -/
theorem C7_verifyEntrySignature_unregistered_false
    (reg : Registry) (identity : IdentityEC) (entry : EncodedEntry)
    (h : registryLookup identity.Type' reg = none) :
    VerifyEntrySignature reg identity entry = false := by
  simp [VerifyEntrySignature, GetIdentityProvider, h]

/-- Witness for C7: the empty registry has no provider for the sample
identity's type, and `VerifyEntrySignature` returns `false` on it. -/
theorem C7_witness : VerifyEntrySignature [] tIdentity tEncoded = false :=
  C7_verifyEntrySignature_unregistered_false [] tIdentity tEncoded rfl

/-- C9: canonical encoding is deterministic: `Encode` is a pure function of
the entry's nine logical fields alone, so any two entries that agree on
those fields encode to byte-identical output and an identical content
identifier, independent of anything else in memory. -/
theorem C9_encode_deterministic (H : GoStr → GoStr) (e1 e2 : Entry)
    (hID : e1.ID = e2.ID) (hPayload : e1.Payload = e2.Payload)
    (hNext : e1.Next = e2.Next) (hRefs : e1.Refs = e2.Refs)
    (hClock : e1.Clock = e2.Clock) (hV : e1.V = e2.V)
    (hKey : e1.Key = e2.Key) (hIdentity : e1.Identity = e2.Identity)
    (hSignature : e1.Signature = e2.Signature) :
    (Encode H e1).Bytes = (Encode H e2).Bytes
      ∧ (Encode H e1).CID = (Encode H e2).CID := by
  have he : e1 = e2 := by
    cases e1; cases e2; simp_all
  rw [he]
  exact ⟨rfl, rfl⟩

/-- Witness for C9: the two syntactically separate copies of the same
logical entry value encode identically. -/
theorem C9_witness :
    (Encode tH t9E1).Bytes = (Encode tH t9E2).Bytes
      ∧ (Encode tH t9E1).CID = (Encode tH t9E2).CID :=
  C9_encode_deterministic tH t9E1 t9E2 rfl rfl rfl rfl rfl rfl rfl rfl rfl

/-- C10: `CreateIdentity` derives its key pair from the fixed hardcoded
private scalar, not fresh randomness: any two calls, with any ids and any
signing outcomes, return identities with the same hex public key and the
same private key. -/
theorem C10_createIdentity_fixed_key (H : GoStr → GoStr) (G : ScalarBaseMult)
    (ec1 ec2 ec3 ec4 : ECSign) (id1 id2 : GoStr) :
    (CreateIdentity H G ec1 ec2 id1).PublicKey
        = (CreateIdentity H G ec3 ec4 id2).PublicKey
      ∧ (CreateIdentity H G ec1 ec2 id1).PrivateKey
        = (CreateIdentity H G ec3 ec4 id2).PrivateKey :=
  ⟨rfl, rfl⟩

/-- C1: the claim states that the CID of the `EncodedEntry` returned by
`NewEntry` is derived from the canonical bytes of the fully signed entry.
Counter-evidence from the source: every successful `NewEntry` result
carries the CID and bytes of the encoding with `Signature` cleared (the
signing input), and two runs over the same inputs share CID and bytes no
matter what signatures their signing calls produce. -/
theorem C1_newEntry_cid_from_presignature_bytes
    (H : GoStr → GoStr) (ec : ECSign) (identity : IdentityEC)
    (id payload : GoStr) (clock : Clock) (e : EncodedEntry)
    (h : NewEntry H ec identity id payload clock = .ok e) :
    e.CID = (Encode H { e.Entry with Signature := [] }).CID
      ∧ e.Bytes = (Encode H { e.Entry with Signature := [] }).Bytes
      ∧ ∀ ec2 e2, NewEntry H ec2 identity id payload clock = .ok e2 →
          e2.CID = e.CID ∧ e2.Bytes = e.Bytes := by
  cases hpk : identity.PrivateKey with
  | none => simp [NewEntry, IdentityEC.Sign, hpk] at h
  | some d =>
    simp only [NewEntry, IdentityEC.Sign, hpk, Outcome.ok.injEq] at h
    subst h
    refine ⟨rfl, rfl, ?_⟩
    intro ec2 e2 h2
    simp only [NewEntry, IdentityEC.Sign, hpk, Outcome.ok.injEq] at h2
    subst h2
    exact ⟨rfl, rfl⟩

/-- Witness for C1: on the sample inputs, the returned encoded entry's CID
and bytes are those of the pre-signature encoding. -/
theorem C1_witness :
    tEncoded.CID = (Encode tH { tEncoded.Entry with Signature := [] }).CID
      ∧ tEncoded.Bytes = (Encode tH { tEncoded.Entry with Signature := [] }).Bytes := by
  have m := C1_newEntry_cid_from_presignature_bytes tH tEc tIdentity (asc "A")
    (asc "hello") tClock tEncoded (by decide)
  exact ⟨m.1, m.2.1⟩

/-- C6: `VerifyIdentityWithEntry` returns `(false-or-true, no error)`
whenever both halves of the signature hex parse — the boolean is exactly
the `ecdsa.Verify` result, so a well-formed but cryptographically invalid
signature yields `false` with no error — and returns an error exactly when
one half of the signature hex does not decode. -/
theorem C6_verifyIdentityWithEntry_error_discipline
    (H : GoStr → GoStr) (ecV : ECVerify) (identity : IdentityEC)
    (data sig : GoStr) :
    (∀ r s : Int,
        setStringHex (sig.take (sig.length / 2)) = some r →
        setStringHex (sig.drop (sig.length / 2)) = some s →
        VerifyIdentityWithEntry H ecV identity data sig
          = .ok (ecV identity.PublicKey (H data) r s))
      ∧ (VerifyIdentityWithEntry H ecV identity data sig
            = .error (asc "invalid signature format")
          ↔ setStringHex (sig.take (sig.length / 2)) = none
            ∨ setStringHex (sig.drop (sig.length / 2)) = none) := by
  rcases h1 : setStringHex (sig.take (sig.length / 2)) with _ | r
  · constructor
    · intro r s hr hs
      cases hr
    · simp [VerifyIdentityWithEntry, h1]
  · rcases h2 : setStringHex (sig.drop (sig.length / 2)) with _ | s
    · constructor
      · intro r0 s0 hr hs
        cases hs
      · simp [VerifyIdentityWithEntry, h1, h2]
    · constructor
      · intro r0 s0 hr hs
        cases hr
        cases hs
        simp [VerifyIdentityWithEntry, h1, h2]
      · simp [VerifyIdentityWithEntry, h1, h2]

/-- Witness for C6: a well-formed sample signature parses and the call
returns the verify result with no error. -/
theorem C6_witness :
    VerifyIdentityWithEntry tH t6EcV tIdentity (asc "m") (asc "1234")
      = .ok true := by
  have m := (C6_verifyIdentityWithEntry_error_discipline tH t6EcV tIdentity
    (asc "m") (asc "1234")).1 18 52 (by decide) (by decide)
  rw [m]
  have hv : t6EcV tIdentity.PublicKey (tH (asc "m")) 18 52 = true := by decide
  rw [hv]

/-- Every result of the provider's `VerifyIdentity` is either the success
pair or carries `false` in its boolean component. -/
theorem providerVerifyIdentity_cases (H : GoStr → GoStr) (ecV : ECVerify)
    (i : IdentityPK) :
    PublicKeyProviderVerifyIdentity H ecV i = (true, none)
      ∨ (PublicKeyProviderVerifyIdentity H ecV i).1 = false := by
  unfold PublicKeyProviderVerifyIdentity
  split
  · exact Or.inr rfl
  · split
    · exact Or.inr rfl
    · split
      · exact Or.inr rfl
      · split
        · exact Or.inr rfl
        · split
          · exact Or.inr rfl
          · exact Or.inl rfl

/-- C8: the Identity Manager's `VerifyIdentity` returns the bound
provider's boolean verbatim, and whenever the bound provider
(`PublicKeyProvider.VerifyIdentity`, the one provider this repository
registers) reports an error, the returned boolean is `false`. -/
theorem C8_managerVerifyIdentity_collapses_provider_errors
    (H : GoStr → GoStr) (ecV : ECVerify) (identity : IdentityPK) :
    IdentitiesVerifyIdentity (PublicKeyProviderVerifyIdentity H ecV) identity
        = (PublicKeyProviderVerifyIdentity H ecV identity).1
      ∧ ((PublicKeyProviderVerifyIdentity H ecV identity).2.isSome = true →
          IdentitiesVerifyIdentity (PublicKeyProviderVerifyIdentity H ecV)
            identity = false) := by
  refine ⟨rfl, fun herr => ?_⟩
  rcases providerVerifyIdentity_cases H ecV identity with hc | hc
  · rw [hc] at herr
    simp at herr
  · exact hc

/-- Witness for C8: the zero-value identity makes the provider report an
error, and the manager returns `false` on it. -/
theorem C8_witness :
    IdentitiesVerifyIdentity (PublicKeyProviderVerifyIdentity tH tEcVfalse)
      tPKEmpty = false :=
  (C8_managerVerifyIdentity_collapses_provider_errors tH tEcVfalse
    tPKEmpty).2 (by decide)

/-- A nonempty list is not `isEmpty`. -/
theorem isEmpty_false_of_ne_nil {l : GoStr} (h : l ≠ []) : l.isEmpty = false := by
  cases l with
  | nil => exact absurd rfl h
  | cons a t => rfl

theorem createIdentity_ID (H : GoStr → GoStr) (G : ScalarBaseMult)
    (ec1 ec2 : ECSign) (id : GoStr) :
    (CreateIdentity H G ec1 ec2 id).ID = id :=
  rfl

theorem createIdentity_PublicKey (H : GoStr → GoStr) (G : ScalarBaseMult)
    (ec1 ec2 : ECSign) (id : GoStr) :
    (CreateIdentity H G ec1 ec2 id).PublicKey
      = hexEncodeBytes (natBytes (G hardcodedD).x ++ natBytes (G hardcodedD).y) :=
  rfl

theorem createIdentity_Type (H : GoStr → GoStr) (G : ScalarBaseMult)
    (ec1 ec2 : ECSign) (id : GoStr) :
    (CreateIdentity H G ec1 ec2 id).Type' = asc "publickey" :=
  rfl

theorem createIdentity_Hash_ne_nil (H : GoStr → GoStr) (G : ScalarBaseMult)
    (ec1 ec2 : ECSign) (id : GoStr) :
    (CreateIdentity H G ec1 ec2 id).Hash ≠ [] := by
  simp [CreateIdentity, EncodeIdentity, mhSumSha256]

theorem createIdentity_Bytes_ne_nil (H : GoStr → GoStr) (G : ScalarBaseMult)
    (ec1 ec2 : ECSign) (id : GoStr) :
    (CreateIdentity H G ec1 ec2 id).Bytes ≠ [] := by
  simp [CreateIdentity, EncodeIdentity, encodeIdentityBytes, cborHead]

/-- If the stored `id` self-signature fails verification, the provider's
`VerifyIdentity` reports `false` (also when the identity is already
rejected as incomplete). -/
theorem providerVerifyIdentity_false_of_first (H : GoStr → GoStr)
    (ecV : ECVerify) (i : IdentityPK) (g1 : GoStr)
    (hl1 : lookupSig (asc "id") i.Signatures = some g1)
    (hg1 : PublicKeyProviderVerifyData H ecV i g1 i.ID = false) :
    (PublicKeyProviderVerifyIdentity H ecV i).1 = false := by
  unfold PublicKeyProviderVerifyIdentity
  split
  · rfl
  · simp [hl1, hg1]

/-- If the stored `publicKey` self-signature fails verification, the
provider's `VerifyIdentity` reports `false` (also when an earlier step
already rejects). -/
theorem providerVerifyIdentity_false_of_second (H : GoStr → GoStr)
    (ecV : ECVerify) (i : IdentityPK) (g1 g2 : GoStr)
    (hl1 : lookupSig (asc "id") i.Signatures = some g1)
    (hg1 : PublicKeyProviderVerifyData H ecV i g1 i.ID = true)
    (hl2 : lookupSig (asc "publicKey") i.Signatures = some g2)
    (hg2 : PublicKeyProviderVerifyData H ecV i g2 i.PublicKey = false) :
    (PublicKeyProviderVerifyIdentity H ecV i).1 = false := by
  unfold PublicKeyProviderVerifyIdentity
  split
  · rfl
  · simp [hl1, hg1, hl2, hg2]

/-- If the identity is complete and both stored self-signatures verify, the
provider's `VerifyIdentity` returns the success pair. -/
theorem providerVerifyIdentity_eq_true (H : GoStr → GoStr) (ecV : ECVerify)
    (i : IdentityPK) (g1 g2 : GoStr)
    (hIs : IsIdentity i = true)
    (hl1 : lookupSig (asc "id") i.Signatures = some g1)
    (hg1 : PublicKeyProviderVerifyData H ecV i g1 i.ID = true)
    (hl2 : lookupSig (asc "publicKey") i.Signatures = some g2)
    (hg2 : PublicKeyProviderVerifyData H ecV i g2 i.PublicKey = true) :
    PublicKeyProviderVerifyIdentity H ecV i = (true, none) := by
  simp [PublicKeyProviderVerifyIdentity, hIs, hl1, hg1, hl2, hg2]

/-- C5, as claimed, is false on this code: `VerifyIdentity` rejects some
identities `CreateIdentity` itself produced.  Two concrete violating runs:
with signing outcomes of short natural width (`(r, s) = (1, 2)` and
`(3, 4)`), `signData` stores four-character self-signatures that the
fixed-width wire format rejects, so verification fails even under an
`ecdsa.Verify` that accepts everything; and with the empty id,
`IsIdentity` rejects the created identity outright. -/
theorem C5_counterexample :
    (PublicKeyProviderVerifyIdentity t5H tEcVtrue
        (CreateIdentity t5H t5G tEcShort1 tEcShort2 t5id)).1 = false
      ∧ (PublicKeyProviderVerifyIdentity t5H t5EcV
        (CreateIdentity t5H t5G t5ec1 t5ec2 [])).1 = false := by
  decide

/-- C5, amended: for every nonempty id and every signing run whose four
produced ECDSA signature components have the curve's full 32-byte width —
so that the natural-width encoding `signData` stores coincides with the
fixed-width wire format (the `hp1`/`hp2` round-trip hypotheses) — the
identity returned by the public-key provider's `CreateIdentity` carries
the two self-signatures — one over the raw id string, one over the hex
public key — and the provider's `VerifyIdentity` accepts it; replacing its
`PublicKey` by any other string, or replacing either self-signature by one
that does not decode to the same signature value, makes `VerifyIdentity`
report `false`.  The remaining hypotheses state, for the abstract external
ECDSA primitives, that verification accepts exactly the legitimate
combinations (soundness and completeness at the involved inputs). -/
theorem C5_createIdentity_self_consistency
    (H : GoStr → GoStr) (G : ScalarBaseMult) (ecV : ECVerify)
    (ec1 ec2 : ECSign) (id : GoStr) (r1 s1 r2 s2 : Nat)
    (hec1 : ec1 hardcodedD (H id) = (r1, s1))
    (hec2 : ec2 hardcodedD
        (H (hexEncodeBytes (natBytes (G hardcodedD).x ++ natBytes (G hardcodedD).y)))
      = (r2, s2))
    (hid : id ≠ [])
    (hp1 : parseFixedSig (signDataRS r1 s1) = some (r1, s1))
    (hp2 : parseFixedSig (signDataRS r2 s2) = some (r2, s2))
    (hpub : decodePublicKeyHex
        (hexEncodeBytes (natBytes (G hardcodedD).x ++ natBytes (G hardcodedD).y))
      = some (G hardcodedD))
    (hv1 : ecV (G hardcodedD) (H id) (r1 : Int) (s1 : Int) = true)
    (hv2 : ecV (G hardcodedD)
        (H (hexEncodeBytes (natBytes (G hardcodedD).x ++ natBytes (G hardcodedD).y)))
        (r2 : Int) (s2 : Int) = true)
    (hs1 : ∀ pub2 : ECPoint, pub2 ≠ G hardcodedD →
        ecV pub2 (H id) (r1 : Int) (s1 : Int) = false)
    (hs2 : ∀ m : GoStr,
        m ≠ hexEncodeBytes (natBytes (G hardcodedD).x ++ natBytes (G hardcodedD).y) →
        ecV (G hardcodedD) (H m) (r2 : Int) (s2 : Int) = false)
    (hs3 : ∀ r s : Nat, (r, s) ≠ (r1, s1) →
        ecV (G hardcodedD) (H id) (r : Int) (s : Int) = false)
    (hs4 : ∀ r s : Nat, (r, s) ≠ (r2, s2) →
        ecV (G hardcodedD)
          (H (hexEncodeBytes (natBytes (G hardcodedD).x ++ natBytes (G hardcodedD).y)))
          (r : Int) (s : Int) = false) :
    lookupSig (asc "id") (CreateIdentity H G ec1 ec2 id).Signatures
        = some (signDataRS r1 s1)
      ∧ lookupSig (asc "publicKey") (CreateIdentity H G ec1 ec2 id).Signatures
        = some (signDataRS r2 s2)
      ∧ PublicKeyProviderVerifyIdentity H ecV (CreateIdentity H G ec1 ec2 id)
        = (true, none)
      ∧ (∀ pk2 : GoStr, pk2 ≠ (CreateIdentity H G ec1 ec2 id).PublicKey →
          (PublicKeyProviderVerifyIdentity H ecV
            { CreateIdentity H G ec1 ec2 id with PublicKey := pk2 }).1 = false)
      ∧ (∀ g : GoStr, parseFixedSig g ≠ some (r1, s1) →
          (PublicKeyProviderVerifyIdentity H ecV
            { CreateIdentity H G ec1 ec2 id with
              Signatures := [(asc "id", g), (asc "publicKey", signDataRS r2 s2)] }).1
            = false)
      ∧ (∀ g : GoStr, parseFixedSig g ≠ some (r2, s2) →
          (PublicKeyProviderVerifyIdentity H ecV
            { CreateIdentity H G ec1 ec2 id with
              Signatures := [(asc "id", signDataRS r1 s1), (asc "publicKey", g)] }).1
            = false) := by
  have hsd1 : signData ec1 H hardcodedD id = signDataRS r1 s1 :=
    signData_eq_of_outcome ec1 H hardcodedD id r1 s1 hec1
  have hsd2 : signData ec2 H hardcodedD
      (hexEncodeBytes (natBytes (G hardcodedD).x ++ natBytes (G hardcodedD).y))
      = signDataRS r2 s2 :=
    signData_eq_of_outcome ec2 H hardcodedD _ r2 s2 hec2
  have hSigs : (CreateIdentity H G ec1 ec2 id).Signatures
      = [(asc "id", signDataRS r1 s1), (asc "publicKey", signDataRS r2 s2)] := by
    rw [createIdentity_Signatures, hsd1, hsd2]
  have hlook1 : lookupSig (asc "id") (CreateIdentity H G ec1 ec2 id).Signatures
      = some (signDataRS r1 s1) := by
    rw [hSigs]
    simp +decide [lookupSig]
  have hlook2 : lookupSig (asc "publicKey") (CreateIdentity H G ec1 ec2 id).Signatures
      = some (signDataRS r2 s2) := by
    rw [hSigs]
    simp +decide [lookupSig]
  have hPK := createIdentity_PublicKey H G ec1 ec2 id
  have hIDe := createIdentity_ID H G ec1 ec2 id
  have hPHne : hexEncodeBytes (natBytes (G hardcodedD).x ++ natBytes (G hardcodedD).y)
      ≠ [] := by
    intro hnil
    rw [hnil] at hpub
    simp [decodePublicKeyHex, hexDecode] at hpub
  have hIsId : IsIdentity (CreateIdentity H G ec1 ec2 id) = true := by
    unfold IsIdentity
    rw [hSigs, hIDe, hPK, createIdentity_Type,
      isEmpty_false_of_ne_nil hid, isEmpty_false_of_ne_nil hPHne,
      isEmpty_false_of_ne_nil (createIdentity_Hash_ne_nil H G ec1 ec2 id),
      isEmpty_false_of_ne_nil (createIdentity_Bytes_ne_nil H G ec1 ec2 id)]
    rfl
  refine ⟨hlook1, hlook2, ?_, ?_, ?_, ?_⟩
  · refine providerVerifyIdentity_eq_true H ecV _ _ _ hIsId hlook1 ?_ hlook2 ?_
    · simp only [PublicKeyProviderVerifyData, IdentityPK.Verify, hp1, hPK, hpub, hIDe]
      exact hv1
    · simp only [PublicKeyProviderVerifyData, IdentityPK.Verify, hp2, hPK, hpub]
      exact hv2
  · intro pk2 hne
    rw [hPK] at hne
    cases hd : decodePublicKeyHex pk2 with
    | none =>
      refine providerVerifyIdentity_false_of_first H ecV _ (signDataRS r1 s1) hlook1 ?_
      simp [PublicKeyProviderVerifyData, IdentityPK.Verify, hp1, hd]
    | some pub2 =>
      by_cases hpe : pub2 = G hardcodedD
      · subst hpe
        refine providerVerifyIdentity_false_of_second H ecV _ (signDataRS r1 s1)
          (signDataRS r2 s2) hlook1 ?_ hlook2 ?_
        · simp only [PublicKeyProviderVerifyData, IdentityPK.Verify, hp1, hd, hIDe]
          exact hv1
        · simp only [PublicKeyProviderVerifyData, IdentityPK.Verify, hp2, hd]
          exact hs2 pk2 hne
      · refine providerVerifyIdentity_false_of_first H ecV _ (signDataRS r1 s1) hlook1 ?_
        simp only [PublicKeyProviderVerifyData, IdentityPK.Verify, hp1, hd, hIDe]
        exact hs1 pub2 hpe
  · intro g hg
    refine providerVerifyIdentity_false_of_first H ecV _ g (by simp +decide [lookupSig]) ?_
    cases hpg : parseFixedSig g with
    | none => simp [PublicKeyProviderVerifyData, IdentityPK.Verify, hpg]
    | some rs =>
      obtain ⟨r, s⟩ := rs
      have hrs : (r, s) ≠ (r1, s1) := by
        intro heq
        rw [heq] at hpg
        exact hg hpg
      simp only [PublicKeyProviderVerifyData, IdentityPK.Verify, hpg,
        createIdentity_PublicKey, hpub, createIdentity_ID]
      exact hs3 r s hrs
  · intro g hg
    refine providerVerifyIdentity_false_of_second H ecV _ (signDataRS r1 s1) g (by simp +decide [lookupSig]) ?_ (by simp +decide [lookupSig]) ?_
    · simp only [PublicKeyProviderVerifyData, IdentityPK.Verify, hp1,
        createIdentity_PublicKey, hpub, createIdentity_ID]
      exact hv1
    · cases hpg : parseFixedSig g with
      | none => simp [PublicKeyProviderVerifyData, IdentityPK.Verify, hpg]
      | some rs =>
        obtain ⟨r, s⟩ := rs
        have hrs : (r, s) ≠ (r2, s2) := by
          intro heq
          rw [heq] at hpg
          exact hg hpg
        simp only [PublicKeyProviderVerifyData, IdentityPK.Verify, hpg,
          createIdentity_PublicKey, hpub]
        exact hs4 r s hrs

/-- Witness for C5: the sample crypto primitives instantiate every
hypothesis (the sample components are full-width, so they round-trip, and
the sample verifier accepts exactly the two legitimate combinations), and
the created identity passes `VerifyIdentity`. -/
theorem C5_witness :
    PublicKeyProviderVerifyIdentity t5H t5EcV
      (CreateIdentity t5H t5G t5ec1 t5ec2 t5id) = (true, none) := by
  refine (C5_createIdentity_self_consistency t5H t5G t5EcV t5ec1 t5ec2 t5id
    t5r1 t5s1 t5r2 t5s2 rfl rfl (by decide) (by decide) (by decide) (by decide)
    (by decide) (by decide) ?_ ?_ ?_ ?_).2.2.1
  · intro pub2 hne
    have hne2 : pub2 ≠ ECPoint.mk t5x t5y := hne
    simp only [t5EcV]
    rw [decide_eq_false hne2]
    simp
  · intro m hne
    have hne2 : m ≠ t5pubHex := hne
    have hr21 : ((t5r2 : Nat) : Int) ≠ ((t5r1 : Nat) : Int) := by decide
    simp only [t5EcV, t5H]
    rw [decide_eq_false hne2, decide_eq_false hr21]
    simp
  · intro r s hne
    have hidpub : t5id ≠ t5pubHex := by decide
    simp only [t5EcV, t5H]
    rw [decide_eq_false hidpub]
    by_cases hr : r = t5r1
    · subst hr
      have hs9 : s ≠ t5s1 := fun h => hne (by rw [h])
      have hs9i : ((s : Nat) : Int) ≠ ((t5s1 : Nat) : Int) := by
        exact_mod_cast hs9
      rw [decide_eq_false hs9i]
      simp
    · have hri : ((r : Nat) : Int) ≠ ((t5r1 : Nat) : Int) := by
        exact_mod_cast hr
      rw [decide_eq_false hri]
      simp
  · intro r s hne
    have hpubid : t5pubHex ≠ t5id := by decide
    have hfold : hexEncodeBytes (natBytes (t5G hardcodedD).x
        ++ natBytes (t5G hardcodedD).y) = t5pubHex := rfl
    simp only [t5EcV, t5H]
    rw [hfold, decide_eq_false hpubid]
    by_cases hr : r = t5r2
    · subst hr
      have hs9 : s ≠ t5s2 := fun h => hne (by rw [h])
      have hs9i : ((s : Nat) : Int) ≠ ((t5s2 : Nat) : Int) := by
        exact_mod_cast hs9
      rw [decide_eq_false hs9i]
      simp
    · have hri : ((r : Nat) : Int) ≠ ((t5r2 : Nat) : Int) := by
        exact_mod_cast hr
      rw [decide_eq_false hri]
      simp

end OrbitDB
